import Mathlib

/-!
# Verification of the Keycloak load-testing scripts

Shallow embedding of the three Python source files of the repository
(`load_scenarios.py`, `locustfile.py`, `performance_monitor.py`) and proofs
about the embedded definitions.  External effects (HTTP responses, the
subprocess, the clock, the random source, uuid suffixes) are passed in as
explicit parameters, so every definition is an executable Lean function of
its inputs.
-/

namespace KeycloakLoad

/-! ## `load_scenarios.py` : the scenario runner -/

/-- One entry of `LoadTestRunner.scenarios`: `{"users": …, "spawn_rate": …,
"run_time": …}`. -/
structure ScenarioConfig where
  users : Nat
  spawn_rate : Nat
  run_time : String
deriving Repr, DecidableEq

/-- A Python exception that escapes to the caller.  `attributeError` models
`AttributeError` (reading an attribute that was never assigned). -/
inductive PyErr where
  | attributeError
deriving Repr, DecidableEq

/-- The result of `subprocess.run(...)`: return code plus captured output. -/
structure SubprocResult where
  returncode : Int
  stdout : String
  stderr : String
deriving Repr, DecidableEq

/-- The state a `LoadTestRunner` holds after `__init__`.  `__init__` binds a
*local* variable `base_dir = os.getcwd()` and assigns `self.results_dir`,
but never assigns `self.base_dir`; an attribute that was never assigned is
modelled as an `Option` that `__init__` leaves at `none`. -/
structure LoadTestRunner where
  results_dir : String
  base_dir : Option String
  scenarios : List (String × ScenarioConfig)
deriving Repr, DecidableEq

/-- `LoadTestRunner.__init__` run with working directory `cwd`. -/
def LoadTestRunner.init (cwd : String) : LoadTestRunner :=
  { results_dir := cwd ++ "/test_results"
  , base_dir := none
  , scenarios :=
      [ ("light_load", ⟨20, 2, "5m"⟩)
      , ("medium_load", ⟨100, 5, "10m"⟩)
      , ("heavy_load", ⟨500, 10, "15m"⟩)
      , ("stress_test", ⟨2000, 20, "20m"⟩) ] }

/-- The locust command list built inside `run_scenario` (lines 41–52). -/
def buildLocustCmd (baseDir resultsDir scenarioName timestamp : String)
    (cfg : ScenarioConfig) : List String :=
  [ "locust"
  , "-f", baseDir ++ "/locustfile.py"
  , "--host", "http://localhost:8080"
  , "--users", toString cfg.users
  , "--spawn-rate", toString cfg.spawn_rate
  , "--run-time", cfg.run_time
  , "--html", resultsDir ++ "/" ++ scenarioName ++ "_" ++ timestamp ++ ".html"
  , "--headless"
  , "--print-stats"
  , "--csv", resultsDir ++ "/" ++ scenarioName ++ "_" ++ timestamp ]

/-- `LoadTestRunner.run_scenario`.  `subproc` is the oracle for
`subprocess.run` (`none` = the launch raised, caught by the `except` block).
The command list is built *before* the `try` block, and building it reads
`self.base_dir`; when that attribute is unassigned the `AttributeError`
escapes to the caller, which `Except.error` records. -/
def run_scenario (r : LoadTestRunner) (scenarioName : String)
    (cfg : ScenarioConfig) (timestamp : String)
    (subproc : List String → Option SubprocResult) : Except PyErr Bool :=
  match r.base_dir with
  | none => .error .attributeError
  | some bd =>
      let cmd := buildLocustCmd bd r.results_dir scenarioName timestamp cfg
      match subproc cmd with
      | none => .ok false
      | some res => .ok (res.returncode == 0)

/-- One pass of the loop of `wait_for_keycloak`, starting at attempt index
`i` with `remaining` attempts left.  `resp i` is the health-check oracle for
attempt `i`: `none` when `requests.get` raised (swallowed by the bare
`except`), `some code` for an HTTP status code.  Returns (result, number of
attempts made). -/
def waitFrom (resp : Nat → Option Nat) : Nat → Nat → Bool × Nat
  | i, 0 => (false, i)
  | i, remaining + 1 =>
      if resp i = some 200 then (true, i + 1)
      else waitFrom resp (i + 1) remaining

/-- `LoadTestRunner.wait_for_keycloak(max_attempts)` (lines 75–93): returns
whether Keycloak answered, paired with the number of attempts made. -/
def wait_for_keycloak (resp : Nat → Option Nat) (maxAttempts : Nat := 30) :
    Bool × Nat :=
  waitFrom resp 0 maxAttempts

/-! ## `locustfile.py` : the workload definition

Each `KeycloakUser` session owns a token, a test realm name and five lists
of created-resource identifiers.  HTTP responses, the clock, the random
source and the uuid suffixes are inputs of each operation.  The emitted
admin-API requests are returned alongside the new session state (the token
endpoint request of `get_admin_token` is not part of that list; token state
is tracked in the session record itself). -/

/-- A JSON value, as the payload dictionaries of `locustfile.py` build them. -/
inductive JVal where
  | s (v : String)
  | b (v : Bool)
  | n (v : Int)
  | arr (v : List JVal)
  | obj (v : List (String × JVal))

/-- A JSON object: an insertion-ordered association list with unique keys,
as a Python `dict` behaves. -/
def JObj := List (String × JVal)

/-- `k in d` on a Python dict / `d.get(k)`. -/
def getKey : JObj → String → Option JVal
  | [], _ => none
  | (k', v) :: rest, k => if k' = k then some v else getKey rest k

/-- `d[k] = v` on a Python dict: overwrite in place, else append. -/
def setKey : JObj → String → JVal → JObj
  | [], k, v => [(k, v)]
  | (k', v') :: rest, k, v =>
      if k' = k then (k, v) :: rest else (k', v') :: setKey rest k v

/-- The key set (in insertion order) of a JSON object. -/
def keys (m : JObj) : List String := m.map (·.1)

/-- `d.get(k, '')` when a string is expected. -/
def getStr (m : JObj) (k : String) : String :=
  match getKey m k with
  | some (.s v) => v
  | _ => ""

/-- The response of the token endpoint, as `get_admin_token` reads it:
the HTTP status, `token_info["access_token"]` and
`token_info.get("expires_in")` (`none` when the key is absent). -/
structure TokenResp where
  status : Nat
  access_token : String
  expires_in : Option Int

/-- An admin-API HTTP response as the tasks read one: status code, the
`Location` header (`headers.get('Location', '')`), the JSON body when it is
an object, and the JSON body when it is an array of objects (only
`delete_client_scope` reads an array body). -/
structure HttpResp where
  status : Nat
  location : String
  body : JObj
  bodyList : List JObj

/-- An admin-API request the session issues: method, path and JSON body. -/
structure Request where
  method : String
  path : String
  body : Option JObj

/-- The state of one `KeycloakUser` session. `admin_token` also stands for
the `Authorization` default header `get_admin_token` installs. -/
structure Session where
  token_expires_at : Int
  admin_token : Option String
  test_realm_name : String
  users : List String
  clients : List String
  realms : List String
  roles : List String
  groups : List String

/-- `random.choice(seq)` for a list of identifiers: the element at a
uniformly distributed index, seeded by the draw `r`. -/
def randomChoice (r : Nat) (l : List String) : String :=
  l.getD (r % l.length) ""

/-- `random.choice(seq)` for a list of JSON objects. -/
def randomChoiceObj (r : Nat) (l : List JObj) : JObj :=
  l.getD (r % l.length) []

/-- `location.split('/')` at the character level: split the character list
on `'/'`, keeping empty segments, as Python `str.split` with an explicit
separator does. -/
def splitOnSlash : List Char → List (List Char)
  | [] => [[]]
  | c :: rest =>
      match splitOnSlash rest with
      | [] => [[]]
      | seg :: segs =>
          if c = '/' then [] :: seg :: segs else (c :: seg) :: segs

/-- `location.split('/')[-1]`. -/
def lastSegment (location : String) : String :=
  String.mk ((splitOnSlash location.data).getLastD [])

/-- The per-operation inputs of one task execution: the current time, the
token-endpoint response `ensure_valid_token` would get, the random draw,
the response of the task's own (first) HTTP call, and the
`uuid.uuid4().hex` prefix used in payloads. -/
structure TaskCtx where
  now : Int
  tokResp : TokenResp
  rand : Nat
  resp : HttpResp
  uid : String

/-- The session state after `on_start`'s field initialisation (lines
13–23), before the token fetch and the realm creation. -/
def initial_session (uuid8 : String) : Session :=
  { token_expires_at := 0
  , admin_token := none
  , test_realm_name := "test-realm-" ++ uuid8
  , users := [], clients := [], realms := [], roles := [], groups := [] }

/-- `KeycloakUser.get_admin_token` (lines 32–49): on a 200, store the token,
set the expiry to `now + (expires_in default 300 − 60)` and install the
bearer header; on any other status only print. -/
def get_admin_token (now : Int) (resp : TokenResp) (s : Session) : Session :=
  if resp.status = 200 then
    { s with admin_token := some resp.access_token
           , token_expires_at := now + (resp.expires_in.getD 300 - 60) }
  else s

/-- `KeycloakUser.ensure_valid_token` (lines 51–54): refetch when
`time.time() >= self.token_expires_at`.  The second component counts the
token fetches performed (0 or 1). -/
def ensure_valid_token (now : Int) (resp : TokenResp) (s : Session) :
    Session × Nat :=
  if s.token_expires_at ≤ now then (get_admin_token now resp s, 1) else (s, 0)

/-- `KeycloakUser.create_test_realm` (lines 56–65): POST the realm, and on a
201 record the realm name in `created_resources['realms']`. -/
def create_test_realm (resp : HttpResp) (s : Session) : Session × List Request :=
  let req : Request :=
    ⟨"POST", "/admin/realms",
      some [ ("realm", .s s.test_realm_name)
           , ("displayName", .s ("Test Realm " ++ s.test_realm_name))
           , ("enabled", .b true) ]⟩
  if resp.status = 201 then
    ({ s with realms := s.realms ++ [s.test_realm_name] }, [req])
  else (s, [req])

/-- `KeycloakUser.on_start`: initialise the session, fetch the admin token,
create the test realm. -/
def on_start (uuid8 : String) (now : Int) (tokResp : TokenResp)
    (realmResp : HttpResp) : Session :=
  (create_test_realm realmResp (get_admin_token now tokResp (initial_session uuid8))).1

/-- `KeycloakUser.cleanup_resources` (lines 67–72): refresh the token if
needed, then DELETE the test realm when its name was recorded in
`created_resources['realms']`. -/
def cleanup_resources (now : Int) (tokResp : TokenResp) (s : Session) :
    Session × List Request :=
  let s := (ensure_valid_token now tokResp s).1
  if s.test_realm_name ∈ s.realms then
    (s, [⟨"DELETE", "/admin/realms/" ++ s.test_realm_name, none⟩])
  else (s, [])

/-- `f"/admin/realms/{self.test_realm_name}"`, the prefix of every
task path. -/
def realmPath (s : Session) : String := "/admin/realms/" ++ s.test_realm_name

/-- The `user_data` payload of `create_user` (lines 81–92). -/
def user_payload (uid : String) : JObj :=
  [ ("username", .s ("testuser_" ++ uid))
  , ("enabled", .b true)
  , ("firstName", .s ("Test_" ++ uid))
  , ("lastName", .s "User")
  , ("email", .s ("testuser_" ++ uid ++ "@example.com"))
  , ("credentials", .arr [.obj
      [ ("type", .s "password")
      , ("value", .s "password123")
      , ("temporary", .b false) ]]) ]

/-- The `client_data` payload of `create_client` (lines 107–116). -/
def client_payload (uid : String) : JObj :=
  [ ("clientId", .s ("test-client-" ++ uid))
  , ("name", .s ("Test Client " ++ uid))
  , ("description", .s "Load test client")
  , ("enabled", .b true)
  , ("protocol", .s "openid-connect")
  , ("publicClient", .b false)
  , ("standardFlowEnabled", .b true)
  , ("directAccessGrantsEnabled", .b true) ]

/-- The `role_data` payload of `create_realm_role` (lines 130–134). -/
def role_payload (uid : String) : JObj :=
  [ ("name", .s ("test-role-" ++ uid))
  , ("description", .s ("Test role for load testing - " ++ uid))
  , ("composite", .b false) ]

/-- The `group_data` payload of `create_group` (lines 145–148). -/
def group_payload (uid : String) : JObj :=
  [ ("name", .s ("test-group-" ++ uid))
  , ("attributes", .obj [("description", .arr [.s ("Load test group " ++ uid)])]) ]

/-- The `scope_data` payload of `create_client_scope` (lines 162–167). -/
def scope_payload (uid : String) : JObj :=
  [ ("name", .s ("test-scope-" ++ uid))
  , ("description", .s ("Test client scope " ++ uid))
  , ("protocol", .s "openid-connect")
  , ("attributes", .obj [("include.in.token.scope", .s "true")]) ]

/-- The `update_data` payload of `update_user` (lines 217–220); `str(int(time.time()))`
is rendered through `toString`. -/
def update_user_payload (now : Int) (uid : String) : JObj :=
  [ ("firstName", .s ("Updated_" ++ uid))
  , ("attributes", .obj [("lastUpdated", .arr [.s (toString now)])]) ]

/-- The `update_data` payload of `update_client` (lines 230–233). -/
def update_client_payload (now : Int) : JObj :=
  [ ("description", .s ("Updated client description - " ++ toString now))
  , ("attributes", .obj [("lastModified", .s (toString now))]) ]

/-- The `update_data` payload of `update_realm_settings` (lines 276–279). -/
def update_realm_payload (now : Int) : JObj :=
  [ ("displayName", .s ("Updated Test Realm - " ++ toString now))
  , ("attributes", .obj [("lastUpdated", .s (toString now))]) ]

/-- The PUT body of `update_realm_role` (lines 246–249): the GET body with
only `description` overwritten. -/
def update_role_body (now : Int) (current : JObj) : JObj :=
  setKey current "description" (.s ("Updated role description - " ++ toString now))

/-- Lines 265–266 of `update_group`: `if "attributes" not in current_group:
current_group["attributes"] = {}`. -/
def ensure_attributes (current : JObj) : JObj :=
  if (getKey current "attributes").isSome then current
  else setKey current "attributes" (.obj [])

/-- The PUT body of `update_group` (lines 262–268): ensure `attributes`
exists, then overwrite `attributes.description` and `attributes.lastModified`
inside it.  When `attributes` is present but not an object the Python code
raises a `TypeError` at the nested item assignment and the PUT is never
issued; that case is `none`. -/
def update_group_body (now : Int) (current : JObj) : Option JObj :=
  match getKey (ensure_attributes current) "attributes" with
  | some (.obj attrs) =>
      some (setKey (ensure_attributes current) "attributes"
        (.obj (setKey
          (setKey attrs "description" (.arr [.s ("Updated group - " ++ toString now)]))
          "lastModified" (.arr [.s (toString now)]))))
  | _ => none

/-- The twenty `@task` methods of `KeycloakUser`. -/
inductive Task where
  | create_user | create_client | create_realm_role | create_group
  | create_client_scope
  | read_users | read_clients | read_realm_roles | read_groups
  | read_realm_info
  | update_user | update_client | update_realm_role | update_group
  | update_realm_settings
  | delete_user | delete_client | delete_realm_role | delete_group
  | delete_client_scope
deriving Repr, DecidableEq

/-- One execution of a task: the new session state and the admin-API
requests emitted, in order.  Every task first runs `ensure_valid_token`
(whose possible token-endpoint POST is tracked in the session state, not in
the request list). -/
def step (t : Task) (s : Session) (ctx : TaskCtx) : Session × List Request :=
  let s := (ensure_valid_token ctx.now ctx.tokResp s).1
  match t with
  | .create_user =>
      let req : Request := ⟨"POST", realmPath s ++ "/users", some (user_payload ctx.uid)⟩
      if ctx.resp.status = 201 then
        if ctx.resp.location ≠ "" then
          ({ s with users := s.users ++ [lastSegment ctx.resp.location] }, [req])
        else (s, [req])
      else (s, [req])
  | .create_client =>
      let req : Request := ⟨"POST", realmPath s ++ "/clients", some (client_payload ctx.uid)⟩
      if ctx.resp.status = 201 then
        if ctx.resp.location ≠ "" then
          ({ s with clients := s.clients ++ [lastSegment ctx.resp.location] }, [req])
        else (s, [req])
      else (s, [req])
  | .create_realm_role =>
      let req : Request := ⟨"POST", realmPath s ++ "/roles", some (role_payload ctx.uid)⟩
      if ctx.resp.status = 201 then
        ({ s with roles := s.roles ++ ["test-role-" ++ ctx.uid] }, [req])
      else (s, [req])
  | .create_group =>
      let req : Request := ⟨"POST", realmPath s ++ "/groups", some (group_payload ctx.uid)⟩
      if ctx.resp.status = 201 then
        if ctx.resp.location ≠ "" then
          ({ s with groups := s.groups ++ [lastSegment ctx.resp.location] }, [req])
        else (s, [req])
      else (s, [req])
  | .create_client_scope =>
      (s, [⟨"POST", realmPath s ++ "/client-scopes", some (scope_payload ctx.uid)⟩])
  | .read_users => (s, [⟨"GET", realmPath s ++ "/users", none⟩])
  | .read_clients => (s, [⟨"GET", realmPath s ++ "/clients", none⟩])
  | .read_realm_roles => (s, [⟨"GET", realmPath s ++ "/roles", none⟩])
  | .read_groups => (s, [⟨"GET", realmPath s ++ "/groups", none⟩])
  | .read_realm_info => (s, [⟨"GET", realmPath s, none⟩])
  | .update_user =>
      if s.users.isEmpty then (s, [])
      else
        let user_id := randomChoice ctx.rand s.users
        (s, [⟨"PUT", realmPath s ++ "/users/" ++ user_id,
              some (update_user_payload ctx.now ctx.uid)⟩])
  | .update_client =>
      if s.clients.isEmpty then (s, [])
      else
        let client_id := randomChoice ctx.rand s.clients
        (s, [⟨"PUT", realmPath s ++ "/clients/" ++ client_id,
              some (update_client_payload ctx.now)⟩])
  | .update_realm_role =>
      if s.roles.isEmpty then (s, [])
      else
        let role_name := randomChoice ctx.rand s.roles
        let getReq : Request := ⟨"GET", realmPath s ++ "/roles/" ++ role_name, none⟩
        if ctx.resp.status = 200 then
          (s, [getReq, ⟨"PUT", realmPath s ++ "/roles/" ++ role_name,
                some (update_role_body ctx.now ctx.resp.body)⟩])
        else (s, [getReq])
  | .update_group =>
      if s.groups.isEmpty then (s, [])
      else
        let group_id := randomChoice ctx.rand s.groups
        let getReq : Request := ⟨"GET", realmPath s ++ "/groups/" ++ group_id, none⟩
        if ctx.resp.status = 200 then
          match update_group_body ctx.now ctx.resp.body with
          | some b => (s, [getReq, ⟨"PUT", realmPath s ++ "/groups/" ++ group_id, some b⟩])
          | none => (s, [getReq])
        else (s, [getReq])
  | .update_realm_settings =>
      (s, [⟨"PUT", realmPath s, some (update_realm_payload ctx.now)⟩])
  | .delete_user =>
      if 1 < s.users.length then
        ({ s with users := s.users.dropLast },
         [⟨"DELETE", realmPath s ++ "/users/" ++ s.users.getLastD "", none⟩])
      else (s, [])
  | .delete_client =>
      if 1 < s.clients.length then
        ({ s with clients := s.clients.dropLast },
         [⟨"DELETE", realmPath s ++ "/clients/" ++ s.clients.getLastD "", none⟩])
      else (s, [])
  | .delete_realm_role =>
      if 1 < s.roles.length then
        ({ s with roles := s.roles.dropLast },
         [⟨"DELETE", realmPath s ++ "/roles/" ++ s.roles.getLastD "", none⟩])
      else (s, [])
  | .delete_group =>
      if 1 < s.groups.length then
        ({ s with groups := s.groups.dropLast },
         [⟨"DELETE", realmPath s ++ "/groups/" ++ s.groups.getLastD "", none⟩])
      else (s, [])
  | .delete_client_scope =>
      let getReq : Request := ⟨"GET", realmPath s ++ "/client-scopes", none⟩
      if ctx.resp.status = 200 then
        let test_scopes := ctx.resp.bodyList.filter
          (fun o => (getStr o "name").startsWith "test-scope-")
        if test_scopes.isEmpty then (s, [getReq])
        else
          let scope_id := getStr (randomChoiceObj ctx.rand test_scopes) "id"
          (s, [getReq, ⟨"DELETE", realmPath s ++ "/client-scopes/" ++ scope_id, none⟩])
      else (s, [getReq])

/-- A session's task history: each entry is a task together with the
external inputs of that execution. -/
def runTrace (s : Session) (tr : List (Task × TaskCtx)) : Session :=
  tr.foldl (fun s e => (step e.1 s e.2).1) s

/-- The identifier a successful `create_user` execution appends: present
exactly when the POST answered 201 and carried a `Location` header. -/
def created_user_id (ctx : TaskCtx) : Option String :=
  if ctx.resp.status = 201 ∧ ctx.resp.location ≠ "" then
    some (lastSegment ctx.resp.location)
  else none

/-- The identifier a successful `create_client` execution appends. -/
def created_client_id (ctx : TaskCtx) : Option String :=
  if ctx.resp.status = 201 ∧ ctx.resp.location ≠ "" then
    some (lastSegment ctx.resp.location)
  else none

/-- The role name a successful `create_realm_role` execution appends. -/
def created_role_id (ctx : TaskCtx) : Option String :=
  if ctx.resp.status = 201 then some ("test-role-" ++ ctx.uid) else none

/-- The identifier a successful `create_group` execution appends. -/
def created_group_id (ctx : TaskCtx) : Option String :=
  if ctx.resp.status = 201 ∧ ctx.resp.location ≠ "" then
    some (lastSegment ctx.resp.location)
  else none

/-- `id` was confirmed created in trace `tr`: some execution of the create
task `t` received a 2xx response and extracted `id` from it. -/
def confirmedId (tr : List (Task × TaskCtx)) (t : Task)
    (extract : TaskCtx → Option String) (id : String) : Prop :=
  ∃ ctx : TaskCtx, (t, ctx) ∈ tr ∧ 200 ≤ ctx.resp.status ∧
    ctx.resp.status < 300 ∧ extract ctx = some id

/-! ## `performance_monitor.py` : the metrics collector and reporter

The pandas/float computations are embedded over `ℚ` (a decimal literal such
as `0.1` or `1.5` reads as the exact rational; every comparison the claims
touch compares an integer-valued count against such a threshold, where the
real-valued and the IEEE readings agree).  A pandas `NaN` — the mean of an
empty diff series — is `none`; a comparison of `NaN` with a number is
false, which the `Option` match mirrors. -/

/-- The columns of one row of the system-metrics table that
`create_performance_report` and `analyze_bottlenecks` read. -/
structure SampleRow where
  cpu_percent : ℚ
  cpu_count : ℚ
  load_1min : ℚ
  memory_percent : ℚ
  disk_read_bytes : ℚ
  disk_write_bytes : ℚ
  net_bytes_sent : ℚ
  net_bytes_recv : ℚ
deriving Repr, DecidableEq

/-- The successive differences of a series (the non-`NaN` entries of
`series.diff()`). -/
def diffs : List ℚ → List ℚ
  | [] => []
  | [_] => []
  | a :: b :: rest => (b - a) :: diffs (b :: rest)

/-- `series.diff()`: same length as the input, `none` for the leading
`NaN`. -/
def diffSeries (l : List ℚ) : List (Option ℚ) :=
  match l with
  | [] => []
  | _ :: _ => none :: (diffs l).map some

/-- `series.mean()` over the non-`NaN` entries: `none` is pandas' `NaN`
mean of an empty series. -/
def seriesMean (l : List ℚ) : Option ℚ :=
  if l.isEmpty then none else some (l.sum / l.length)

/-- `df[column].diff() / (1024*1024)`: the series the four I/O panels of
`create_performance_report` plot (lines 204–205 and 214–215).  Note no
division by the sampling interval happens. -/
def mbPanel (l : List ℚ) : List (Option ℚ) :=
  (diffSeries l).map (Option.map (fun d => d / (1024 * 1024)))

/-- The network-sent series plotted by `create_performance_report`. -/
def net_sent_mb (df : List SampleRow) : List (Option ℚ) :=
  mbPanel (df.map (·.net_bytes_sent))

/-- The network-received series plotted by `create_performance_report`. -/
def net_recv_mb (df : List SampleRow) : List (Option ℚ) :=
  mbPanel (df.map (·.net_bytes_recv))

/-- The disk-read series plotted by `create_performance_report`. -/
def disk_read_mb (df : List SampleRow) : List (Option ℚ) :=
  mbPanel (df.map (·.disk_read_bytes))

/-- The disk-write series plotted by `create_performance_report`. -/
def disk_write_mb (df : List SampleRow) : List (Option ℚ) :=
  mbPanel (df.map (·.disk_write_bytes))

/-- Modelled from the spec: the series the spec says those panels plot —
"the successive difference of the cumulative byte counters divided by the
sampling interval (i.e., a per-second rate)". -/
def specRatePanel (interval : ℚ) (l : List ℚ) : List (Option ℚ) :=
  (diffSeries l).map (Option.map (fun d => d / interval))

/-- A bottleneck finding, by which of the five checks appended it, carrying
the numbers its message text interpolates. -/
inductive Finding where
  | cpu (count : Nat)
  | memory (count : Nat)
  | load (threshold : ℚ) (count : Nat)
  | disk (readRate writeRate : ℚ)
  | network (rate : ℚ)
deriving Repr, DecidableEq

/-- `(df['cpu_percent'] > 80).sum()`. -/
def cpuHighCount (df : List SampleRow) : Nat :=
  (df.filter (fun r => 80 < r.cpu_percent)).length

/-- The CPU check (lines 277–280): triggered when the count of samples
with CPU % above 80 exceeds `len(df) * 0.1` (the float literal read as the
exact rational; the comparison pits an integer count against it, where the
real and the IEEE readings agree). -/
def cpu_findings (df : List SampleRow) : List Finding :=
  if (df.length : ℚ) * (1/10) < (cpuHighCount df : ℚ)
  then [.cpu (cpuHighCount df)] else []

/-- The memory check (lines 283–286): any sample above 85 %. -/
def memory_findings (df : List SampleRow) : List Finding :=
  if 0 < (df.filter (fun r => 85 < r.memory_percent)).length
  then [.memory ((df.filter (fun r => 85 < r.memory_percent)).length)] else []

/-- The load check (lines 289–292): any sample whose 1-minute load exceeds
1.5 × the core count of the first sample. -/
def load_findings (cpu_count : ℚ) (df : List SampleRow) : List Finding :=
  if 0 < (df.filter (fun r => cpu_count * (3/2) < r.load_1min)).length
  then [.load (cpu_count * (3/2))
         ((df.filter (fun r => cpu_count * (3/2) < r.load_1min)).length)]
  else []

/-- The disk check (lines 295–299): mean successive difference of either
cumulative counter, scaled to MiB, above 100.  A `NaN` mean (fewer than two
samples) compares false. -/
def disk_findings (df : List SampleRow) : List Finding :=
  match (seriesMean (diffs (df.map (·.disk_read_bytes)))).map
          (fun x => x / (1024 * 1024)),
        (seriesMean (diffs (df.map (·.disk_write_bytes)))).map
          (fun x => x / (1024 * 1024)) with
  | some r, some w => if 100 < r ∨ 100 < w then [.disk r w] else []
  | _, _ => []

/-- The network check (lines 302–304): sum of the two mean successive
differences, scaled to MiB, above 100. -/
def network_findings (df : List SampleRow) : List Finding :=
  match seriesMean (diffs (df.map (·.net_bytes_sent))),
        seriesMean (diffs (df.map (·.net_bytes_recv))) with
  | some a, some b =>
      if 100 < (a + b) / (1024 * 1024)
      then [.network ((a + b) / (1024 * 1024))] else []
  | _, _ => []

/-- The findings of the four non-CPU checks, in check order. -/
def other_bottlenecks (df : List SampleRow) : List Finding :=
  match df with
  | [] => []
  | firstRow :: _ =>
      memory_findings df ++ load_findings firstRow.cpu_count df ++
        disk_findings df ++ network_findings df

/-- `PerformanceMonitor.analyze_bottlenecks` (lines 270–305): the findings
list, in check order.  On an empty table `df['cpu_count'].iloc[0]` raises
an `IndexError` (the function never returns), hence `none`. -/
def analyze_bottlenecks (df : List SampleRow) : Option (List Finding) :=
  match df with
  | [] => none
  | firstRow :: _ =>
      some (cpu_findings df ++
        (memory_findings df ++ load_findings firstRow.cpu_count df ++
          disk_findings df ++ network_findings df))

/-- The outcome of one Prometheus instant query inside
`collect_prometheus_metrics`: either some step raised (`requests.get`, a
timeout, `response.json()`, a missing key, `float(...)`) — all caught by
the `except` — or a parsed response with its HTTP status,
`data['status'] == 'success'` flag and `data['data']['result']` first
values. -/
inductive PromOutcome where
  | exn
  | resp (status : Nat) (success : Bool) (result : List ℚ)
deriving Repr, DecidableEq

/-- The per-query body of the loop (lines 110–130): the value stored in the
row, and whether the error print ran (only the `except` branch prints). -/
def queryValue : PromOutcome → ℚ × Bool
  | .exn => (0, true)
  | .resp status success result =>
      if status = 200 then
        if success = true ∧ result ≠ [] then (result.headD 0, false)
        else (0, false)
      else (0, false)

/-- One iteration of `collect_prometheus_metrics`: one value per named
query (the row's timestamp is dropped). -/
def collect_row (queries : List String) (oracle : String → PromOutcome) :
    List (String × ℚ) :=
  queries.map (fun q => (q, (queryValue (oracle q)).1))

/-- `PerformanceMonitor.collect_prometheus_metrics` (lines 97–135) run for
`iterations` passes of the outer loop: `oracle i q` is the outcome of query
`q` in iteration `i`. -/
def collect_prometheus_metrics (queries : List String)
    (oracle : Nat → String → PromOutcome) (iterations : Nat) :
    List (List (String × ℚ)) :=
  (List.range iterations).map (fun i => collect_row queries (oracle i))

/-! ## Concrete instances used by witnesses and counterexamples -/

/-- A successful token-endpoint response declaring a 300-second lifetime. -/
def tokOK : TokenResp := ⟨200, "tok", some 300⟩

/-- An empty 201 response (as the realm-creation POST answers). -/
def resp201 : HttpResp := ⟨201, "", [], []⟩

/-- A mid-session state with two tracked identifiers of each type and a
token valid until time 1000. -/
def sessAB : Session :=
  { token_expires_at := 1000
  , admin_token := some "tok"
  , test_realm_name := "r"
  , users := ["a", "b"]
  , clients := ["c1", "c2"]
  , realms := ["r"]
  , roles := ["r1", "r2"]
  , groups := ["g1", "g2"] }

/-- Task inputs at time 0 with random draw 0 and an empty 200 response. -/
def ctxA : TaskCtx :=
  { now := 0, tokResp := tokOK, rand := 0, resp := ⟨200, "", [], []⟩, uid := "u" }

/-- Task inputs whose response is a 201 with a `Location` header ending in
`newid`, as a successful `create_user` POST answers. -/
def ctxCreate : TaskCtx :=
  { now := 0, tokResp := tokOK, rand := 0
  , resp := ⟨201, "/admin/realms/r/users/newid", [], []⟩, uid := "u" }

/-- A sample row whose only non-zero reading is the CPU percentage (4
cores). -/
def rowCpu (c : ℚ) : SampleRow := ⟨c, 4, 0, 0, 0, 0, 0, 0⟩

/-- Ten samples of which exactly one (10 %) exceeds the 80 % CPU
threshold. -/
def dfTen : List SampleRow := rowCpu 90 :: List.replicate 9 (rowCpu 50)

/-- Five samples of which exactly one (20 %) exceeds the 80 % CPU
threshold. -/
def dfFive : List SampleRow := rowCpu 90 :: List.replicate 4 (rowCpu 50)

/-- A sample row carrying only cumulative disk-read and network-sent byte
counters. -/
def ioRow (diskRead netSent : ℚ) : SampleRow := ⟨0, 0, 0, 0, diskRead, 0, netSent, 0⟩

/-- Helper: when every attempt in the window fails, the loop exhausts it. -/
theorem waitFrom_all_fail (resp : Nat → Option Nat) :
    ∀ remaining i, (∀ j, i ≤ j → j < i + remaining → resp j ≠ some 200) →
      waitFrom resp i remaining = (false, i + remaining) := by
  intro remaining
  induction remaining with
  | zero => intro i _; simp [waitFrom]
  | succ n ih =>
      intro i h
      have hi : resp i ≠ some 200 := h i le_rfl (by omega)
      simp only [waitFrom, if_neg hi]
      have := ih (i + 1) (fun j hj hj' => h j (by omega) (by omega))
      rw [this]
      ring_nf

/-- Helper: the first attempt answering 200 stops the loop. -/
theorem waitFrom_success (resp : Nat → Option Nat) :
    ∀ remaining i N, i ≤ N → N < i + remaining →
      (∀ j, i ≤ j → j < N → resp j ≠ some 200) → resp N = some 200 →
      waitFrom resp i remaining = (true, N + 1) := by
  intro remaining
  induction remaining with
  | zero => intro i N h1 h2 _ _; omega
  | succ n ih =>
      intro i N h1 h2 hfail hok
      by_cases hiN : i = N
      · subst hiN
        simp [waitFrom, hok]
      · have hi : resp i ≠ some 200 := hfail i le_rfl (by omega)
        simp only [waitFrom, if_neg hi]
        exact ih (i + 1) N (by omega) (by omega)
          (fun j hj hj' => hfail j (by omega) hj') hok

/-- `ensure_valid_token` touches only the token fields. -/
@[simp] theorem ensure_users (now : Int) (r : TokenResp) (s : Session) :
    ((ensure_valid_token now r s).1).users = s.users := by
  unfold ensure_valid_token get_admin_token
  split <;> (try split) <;> rfl

/-- `ensure_valid_token` touches only the token fields. -/
@[simp] theorem ensure_clients (now : Int) (r : TokenResp) (s : Session) :
    ((ensure_valid_token now r s).1).clients = s.clients := by
  unfold ensure_valid_token get_admin_token
  split <;> (try split) <;> rfl

/-- `ensure_valid_token` touches only the token fields. -/
@[simp] theorem ensure_roles (now : Int) (r : TokenResp) (s : Session) :
    ((ensure_valid_token now r s).1).roles = s.roles := by
  unfold ensure_valid_token get_admin_token
  split <;> (try split) <;> rfl

/-- `ensure_valid_token` touches only the token fields. -/
@[simp] theorem ensure_groups (now : Int) (r : TokenResp) (s : Session) :
    ((ensure_valid_token now r s).1).groups = s.groups := by
  unfold ensure_valid_token get_admin_token
  split <;> (try split) <;> rfl

/-- `ensure_valid_token` touches only the token fields. -/
@[simp] theorem ensure_realms (now : Int) (r : TokenResp) (s : Session) :
    ((ensure_valid_token now r s).1).realms = s.realms := by
  unfold ensure_valid_token get_admin_token
  split <;> (try split) <;> rfl

/-- `ensure_valid_token` touches only the token fields. -/
@[simp] theorem ensure_realm_name (now : Int) (r : TokenResp) (s : Session) :
    ((ensure_valid_token now r s).1).test_realm_name = s.test_realm_name := by
  unfold ensure_valid_token get_admin_token
  split <;> (try split) <;> rfl

/-- `ensure_valid_token` preserves every task path prefix. -/
@[simp] theorem ensure_realmPath (now : Int) (r : TokenResp) (s : Session) :
    realmPath ((ensure_valid_token now r s).1) = realmPath s := by
  unfold realmPath
  rw [ensure_realm_name]

/-- How `delete_user` rewrites: pop the last tracked user and DELETE it
when more than one is tracked, otherwise do nothing. -/
theorem step_delete_user_eq (s : Session) (ctx : TaskCtx) :
    step Task.delete_user s ctx =
      if 1 < s.users.length then
        ({ (ensure_valid_token ctx.now ctx.tokResp s).1 with
             users := s.users.dropLast },
         [⟨"DELETE", realmPath s ++ "/users/" ++ s.users.getLastD "", none⟩])
      else ((ensure_valid_token ctx.now ctx.tokResp s).1, []) := by
  simp only [step, ensure_users, ensure_realmPath]

/-- How `delete_client` rewrites. -/
theorem step_delete_client_eq (s : Session) (ctx : TaskCtx) :
    step Task.delete_client s ctx =
      if 1 < s.clients.length then
        ({ (ensure_valid_token ctx.now ctx.tokResp s).1 with
             clients := s.clients.dropLast },
         [⟨"DELETE", realmPath s ++ "/clients/" ++ s.clients.getLastD "", none⟩])
      else ((ensure_valid_token ctx.now ctx.tokResp s).1, []) := by
  simp only [step, ensure_clients, ensure_realmPath]

/-- How `delete_realm_role` rewrites. -/
theorem step_delete_role_eq (s : Session) (ctx : TaskCtx) :
    step Task.delete_realm_role s ctx =
      if 1 < s.roles.length then
        ({ (ensure_valid_token ctx.now ctx.tokResp s).1 with
             roles := s.roles.dropLast },
         [⟨"DELETE", realmPath s ++ "/roles/" ++ s.roles.getLastD "", none⟩])
      else ((ensure_valid_token ctx.now ctx.tokResp s).1, []) := by
  simp only [step, ensure_roles, ensure_realmPath]

/-- How `delete_group` rewrites. -/
theorem step_delete_group_eq (s : Session) (ctx : TaskCtx) :
    step Task.delete_group s ctx =
      if 1 < s.groups.length then
        ({ (ensure_valid_token ctx.now ctx.tokResp s).1 with
             groups := s.groups.dropLast },
         [⟨"DELETE", realmPath s ++ "/groups/" ++ s.groups.getLastD "", none⟩])
      else ((ensure_valid_token ctx.now ctx.tokResp s).1, []) := by
  simp only [step, ensure_groups, ensure_realmPath]

/-- C1: the claim says `run_scenario` returns whether the subprocess exited
with status zero and never raises to its caller.  The code disagrees:
`__init__` never assigns `self.base_dir`, and `run_scenario` reads
`self.base_dir` while building the command list, *before* its `try` block,
so every call raises `AttributeError` to the caller — for every scenario
name, profile and subprocess behaviour. -/
theorem claim_C1 (cwd scenarioName timestamp : String) (cfg : ScenarioConfig)
    (subproc : List String → Option SubprocResult) :
    run_scenario (LoadTestRunner.init cwd) scenarioName cfg timestamp subproc =
      .error .attributeError := rfl

/-- C3, counterexample: the claim says the readiness poll "succeeds on any
2xx response", but the code tests `status_code == 200` only: on a health
endpoint answering 204 (a 2xx status) at every attempt, the poll with one
attempt returns failure. -/
theorem claim_C3_cex :
    wait_for_keycloak (fun _ => some 204) 1 = (false, 1) ∧
      200 ≤ 204 ∧ 204 < 300 :=
  ⟨rfl, by omega, by omega⟩

/-- C3, amended: the poll succeeds exactly on a 200 response.  If the
endpoint answers non-200 (or the request raises) for the first `N` attempts
and 200 on attempt `N+1`, then with `maxAttempts ≥ N+1` the poll returns
true after exactly `N+1` attempts; if every attempt up to `maxAttempts`
fails it returns false (exceptions are swallowed by the bare `except`, so
none reaches the caller). -/
theorem claim_C3 (resp : Nat → Option Nat) (N maxAttempts : Nat) :
    ((∀ i, i < N → resp i ≠ some 200) → resp N = some 200 →
      N + 1 ≤ maxAttempts →
      wait_for_keycloak resp maxAttempts = (true, N + 1)) ∧
    ((∀ i, i < maxAttempts → resp i ≠ some 200) →
      wait_for_keycloak resp maxAttempts = (false, maxAttempts)) := by
  constructor
  · intro hfail hok hle
    exact waitFrom_success resp maxAttempts 0 N (Nat.zero_le N) (by omega)
      (fun j _ hj' => hfail j hj') hok
  · intro hfail
    have h := waitFrom_all_fail resp maxAttempts 0
      (fun j _ hj => hfail j (by omega))
    simpa [wait_for_keycloak] using h

/-- C3, witness: a health endpoint failing twice then answering 200 makes
the poll succeed after exactly 3 attempts; an endpoint whose requests all
raise makes a 5-attempt poll return false. -/
theorem claim_C3_witness :
    wait_for_keycloak (fun i => if i < 2 then some 503 else some 200) 30 =
        (true, 3) ∧
      wait_for_keycloak (fun _ => none) 5 = (false, 5) :=
  ⟨(claim_C3 (fun i => if i < 2 then some 503 else some 200) 2 30).1
      (by decide) (by decide) (by omega),
    (claim_C3 (fun _ => none) 0 5).2 (by decide)⟩

/-- No task ever touches `created_resources['realms']`. -/
theorem step_realms (t : Task) (s : Session) (ctx : TaskCtx) :
    (step t s ctx).1.realms = s.realms := by
  cases t <;> simp only [step] <;> (repeat' split) <;> simp

/-- No task ever changes `test_realm_name`. -/
theorem step_realm_name (t : Task) (s : Session) (ctx : TaskCtx) :
    (step t s ctx).1.test_realm_name = s.test_realm_name := by
  cases t <;> simp only [step] <;> (repeat' split) <;> simp

/-- Running any task history preserves the recorded realms. -/
theorem runTrace_realms (s : Session) (tr : List (Task × TaskCtx)) :
    (runTrace s tr).realms = s.realms := by
  induction tr generalizing s with
  | nil => rfl
  | cons e rest ih =>
      show (runTrace (step e.1 s e.2).1 rest).realms = s.realms
      rw [ih, step_realms]

/-- Running any task history preserves the realm name. -/
theorem runTrace_realm_name (s : Session) (tr : List (Task × TaskCtx)) :
    (runTrace s tr).test_realm_name = s.test_realm_name := by
  induction tr generalizing s with
  | nil => rfl
  | cons e rest ih =>
      show (runTrace (step e.1 s e.2).1 rest).test_realm_name = s.test_realm_name
      rw [ih, step_realm_name]

/-- After `on_start` the realm name is `test-realm-` plus the uuid suffix. -/
theorem on_start_realm_name (uuid8 : String) (now : Int) (tokResp : TokenResp)
    (realmResp : HttpResp) :
    (on_start uuid8 now tokResp realmResp).test_realm_name =
      "test-realm-" ++ uuid8 := by
  unfold on_start create_test_realm get_admin_token initial_session
  split <;> (repeat' split) <;> rfl

/-- After `on_start` the realms list records the test realm exactly when
the creation POST answered 201. -/
theorem on_start_realms (uuid8 : String) (now : Int) (tokResp : TokenResp)
    (realmResp : HttpResp) :
    (on_start uuid8 now tokResp realmResp).realms =
      if realmResp.status = 201 then ["test-realm-" ++ uuid8] else [] := by
  unfold on_start create_test_realm get_admin_token initial_session
  split <;> (repeat' split) <;> rfl

/-- How `update_user` rewrites: skip when nothing is tracked, else PUT the
uniformly chosen tracked user. -/
theorem step_update_user_eq (s : Session) (ctx : TaskCtx) :
    step Task.update_user s ctx =
      ((ensure_valid_token ctx.now ctx.tokResp s).1,
        if s.users.isEmpty then []
        else [⟨"PUT", realmPath s ++ "/users/" ++ randomChoice ctx.rand s.users,
               some (update_user_payload ctx.now ctx.uid)⟩]) := by
  simp only [step, ensure_users, ensure_realmPath]
  split <;> rfl

/-- How `update_client` rewrites. -/
theorem step_update_client_eq (s : Session) (ctx : TaskCtx) :
    step Task.update_client s ctx =
      ((ensure_valid_token ctx.now ctx.tokResp s).1,
        if s.clients.isEmpty then []
        else [⟨"PUT", realmPath s ++ "/clients/" ++ randomChoice ctx.rand s.clients,
               some (update_client_payload ctx.now)⟩]) := by
  simp only [step, ensure_clients, ensure_realmPath]
  split <;> rfl

/-- How `update_realm_role` rewrites: skip when nothing is tracked, else a
GET of the chosen role followed, on a 200, by the PUT of the merged body. -/
theorem step_update_role_eq (s : Session) (ctx : TaskCtx) :
    step Task.update_realm_role s ctx =
      ((ensure_valid_token ctx.now ctx.tokResp s).1,
        if s.roles.isEmpty then []
        else if ctx.resp.status = 200 then
          [⟨"GET", realmPath s ++ "/roles/" ++ randomChoice ctx.rand s.roles, none⟩,
           ⟨"PUT", realmPath s ++ "/roles/" ++ randomChoice ctx.rand s.roles,
             some (update_role_body ctx.now ctx.resp.body)⟩]
        else [⟨"GET", realmPath s ++ "/roles/" ++ randomChoice ctx.rand s.roles, none⟩]) := by
  simp only [step, ensure_roles, ensure_realmPath]
  split <;> (repeat' split) <;> rfl

/-- How `update_group` rewrites: skip when nothing is tracked, else a GET
of the chosen group followed, on a 200 whose body merges cleanly, by the
PUT of the merged body. -/
theorem step_update_group_eq (s : Session) (ctx : TaskCtx) :
    step Task.update_group s ctx =
      ((ensure_valid_token ctx.now ctx.tokResp s).1,
        if s.groups.isEmpty then []
        else if ctx.resp.status = 200 then
          match update_group_body ctx.now ctx.resp.body with
          | some b =>
              [⟨"GET", realmPath s ++ "/groups/" ++ randomChoice ctx.rand s.groups, none⟩,
               ⟨"PUT", realmPath s ++ "/groups/" ++ randomChoice ctx.rand s.groups, some b⟩]
          | none =>
              [⟨"GET", realmPath s ++ "/groups/" ++ randomChoice ctx.rand s.groups, none⟩]
        else [⟨"GET", realmPath s ++ "/groups/" ++ randomChoice ctx.rand s.groups, none⟩]) := by
  simp only [step, ensure_groups, ensure_realmPath]
  split <;> (repeat' split) <;> rfl

/-- `random.choice` picks an element of a non-empty sequence. -/
theorem randomChoice_mem (r : Nat) (l : List String) (h : ¬ l.isEmpty) :
    randomChoice r l ∈ l := by
  unfold randomChoice
  have hl : 0 < l.length := by
    cases l with
    | nil => simp at h
    | cons a rest => simp
  have hm : r % l.length < l.length := Nat.mod_lt _ hl
  rw [List.getD_eq_getElem l "" hm]
  exact List.getElem_mem hm

/-- The default of `getLastD` plays no part on a non-empty list: the result
is an element of the list. -/
theorem getLastD_mem (l : List String) (d : String) (h : l ≠ []) :
    l.getLastD d ∈ l := by
  induction l generalizing d with
  | nil => exact absurd rfl h
  | cons a rest ih =>
      cases rest with
      | nil => simp [List.getLastD]
      | cons b r =>
          have hm := ih a (by simp)
          simp only [List.getLastD] at hm ⊢
          exact List.mem_cons_of_mem a hm

/-- `d[k] = v` never removes a key: every key of `m` is a key of
`setKey m k v`. -/
theorem mem_keys_setKey (m : JObj) (k : String) (v : JVal) (k' : String)
    (h : k' ∈ keys m) : k' ∈ keys (setKey m k v) := by
  induction m with
  | nil => simp [keys] at h
  | cons a rest ih =>
      obtain ⟨ka, va⟩ := a
      simp only [keys, List.map_cons, List.mem_cons] at h
      by_cases hk : ka = k
      · subst hk
        have hset : setKey ((ka, va) :: rest) ka v = (ka, v) :: rest := by
          simp [setKey]
        rw [hset]
        simp only [keys, List.map_cons, List.mem_cons]
        exact h
      · simp only [setKey, if_neg hk, keys, List.map_cons, List.mem_cons]
        rcases h with h | h
        · exact Or.inl h
        · exact Or.inr (ih h)

/-- Ensuring the `attributes` key removes no key. -/
theorem mem_keys_ensure_attributes (current : JObj) (k : String)
    (h : k ∈ keys current) : k ∈ keys (ensure_attributes current) := by
  unfold ensure_attributes
  split
  · exact h
  · exact mem_keys_setKey _ _ _ _ h

/-- When `update_group_body` produces a PUT body, that body's key set
contains every key of the GET body it merged. -/
theorem keys_update_group_body (now : Int) (current b : JObj)
    (h : update_group_body now current = some b) :
    ∀ k ∈ keys current, k ∈ keys b := by
  intro k hk
  unfold update_group_body at h
  split at h
  · injection h with h
    subst h
    exact mem_keys_setKey _ _ _ _ (mem_keys_ensure_attributes _ _ hk)
  · simp at h

/-- An extractor only answers on a 201 (a 2xx) creation response. -/
theorem created_user_id_status (ctx : TaskCtx) (id : String)
    (h : created_user_id ctx = some id) : ctx.resp.status = 201 := by
  unfold created_user_id at h
  split at h
  next hc => exact hc.1
  next => exact absurd h (by simp)

/-- An extractor only answers on a 201 (a 2xx) creation response. -/
theorem created_client_id_status (ctx : TaskCtx) (id : String)
    (h : created_client_id ctx = some id) : ctx.resp.status = 201 := by
  unfold created_client_id at h
  split at h
  next hc => exact hc.1
  next => exact absurd h (by simp)

/-- An extractor only answers on a 201 (a 2xx) creation response. -/
theorem created_role_id_status (ctx : TaskCtx) (id : String)
    (h : created_role_id ctx = some id) : ctx.resp.status = 201 := by
  unfold created_role_id at h
  split at h
  next hc => exact hc
  next => exact absurd h (by simp)

/-- An extractor only answers on a 201 (a 2xx) creation response. -/
theorem created_group_id_status (ctx : TaskCtx) (id : String)
    (h : created_group_id ctx = some id) : ctx.resp.status = 201 := by
  unfold created_group_id at h
  split at h
  next hc => exact hc.1
  next => exact absurd h (by simp)

/-- A user identifier present after one task was either already tracked or
extracted by this task from a confirmed `create_user` response. -/
theorem step_users_mem (t : Task) (s : Session) (ctx : TaskCtx) (id : String)
    (h : id ∈ (step t s ctx).1.users) :
    id ∈ s.users ∨ (t = Task.create_user ∧ created_user_id ctx = some id) := by
  cases t
  case create_user =>
    simp only [step] at h
    split_ifs at h with h1 h2 <;> (try dsimp only at h) <;>
      simp only [ensure_users] at h
    · rcases List.mem_append.1 h with h | h
      · exact Or.inl h
      · simp only [List.mem_singleton] at h
        exact Or.inr ⟨rfl, by simp [created_user_id, h1, h2, h]⟩
    · exact Or.inl h
    · exact Or.inl h
  case delete_user =>
    simp only [step] at h
    split_ifs at h with h1 <;> (try dsimp only at h) <;>
      simp only [ensure_users] at h
    · exact Or.inl ((List.dropLast_sublist s.users).subset h)
    · exact Or.inl h
  all_goals
    simp only [step] at h
  all_goals
    repeat' split at h
  all_goals
    try dsimp only at h
  all_goals
    simp only [ensure_users] at h
  all_goals
    exact Or.inl h

/-- A client identifier present after one task was either already tracked
or extracted by this task from a confirmed `create_client` response. -/
theorem step_clients_mem (t : Task) (s : Session) (ctx : TaskCtx) (id : String)
    (h : id ∈ (step t s ctx).1.clients) :
    id ∈ s.clients ∨ (t = Task.create_client ∧ created_client_id ctx = some id) := by
  cases t
  case create_client =>
    simp only [step] at h
    split_ifs at h with h1 h2 <;> (try dsimp only at h) <;>
      simp only [ensure_clients] at h
    · rcases List.mem_append.1 h with h | h
      · exact Or.inl h
      · simp only [List.mem_singleton] at h
        exact Or.inr ⟨rfl, by simp [created_client_id, h1, h2, h]⟩
    · exact Or.inl h
    · exact Or.inl h
  case delete_client =>
    simp only [step] at h
    split_ifs at h with h1 <;> (try dsimp only at h) <;>
      simp only [ensure_clients] at h
    · exact Or.inl ((List.dropLast_sublist s.clients).subset h)
    · exact Or.inl h
  all_goals
    simp only [step] at h
  all_goals
    repeat' split at h
  all_goals
    try dsimp only at h
  all_goals
    simp only [ensure_clients] at h
  all_goals
    exact Or.inl h

/-- A role name present after one task was either already tracked or the
name a confirmed `create_realm_role` execution appended. -/
theorem step_roles_mem (t : Task) (s : Session) (ctx : TaskCtx) (id : String)
    (h : id ∈ (step t s ctx).1.roles) :
    id ∈ s.roles ∨ (t = Task.create_realm_role ∧ created_role_id ctx = some id) := by
  cases t
  case create_realm_role =>
    simp only [step] at h
    split_ifs at h with h1 <;> (try dsimp only at h) <;>
      simp only [ensure_roles] at h
    · rcases List.mem_append.1 h with h | h
      · exact Or.inl h
      · simp only [List.mem_singleton] at h
        exact Or.inr ⟨rfl, by simp [created_role_id, h1, h]⟩
    · exact Or.inl h
  case delete_realm_role =>
    simp only [step] at h
    split_ifs at h with h1 <;> (try dsimp only at h) <;>
      simp only [ensure_roles] at h
    · exact Or.inl ((List.dropLast_sublist s.roles).subset h)
    · exact Or.inl h
  all_goals
    simp only [step] at h
  all_goals
    repeat' split at h
  all_goals
    try dsimp only at h
  all_goals
    simp only [ensure_roles] at h
  all_goals
    exact Or.inl h

/-- A group identifier present after one task was either already tracked
or extracted by this task from a confirmed `create_group` response. -/
theorem step_groups_mem (t : Task) (s : Session) (ctx : TaskCtx) (id : String)
    (h : id ∈ (step t s ctx).1.groups) :
    id ∈ s.groups ∨ (t = Task.create_group ∧ created_group_id ctx = some id) := by
  cases t
  case create_group =>
    simp only [step] at h
    split_ifs at h with h1 h2 <;> (try dsimp only at h) <;>
      simp only [ensure_groups] at h
    · rcases List.mem_append.1 h with h | h
      · exact Or.inl h
      · simp only [List.mem_singleton] at h
        exact Or.inr ⟨rfl, by simp [created_group_id, h1, h2, h]⟩
    · exact Or.inl h
    · exact Or.inl h
  case delete_group =>
    simp only [step] at h
    split_ifs at h with h1 <;> (try dsimp only at h) <;>
      simp only [ensure_groups] at h
    · exact Or.inl ((List.dropLast_sublist s.groups).subset h)
    · exact Or.inl h
  all_goals
    simp only [step] at h
  all_goals
    repeat' split at h
  all_goals
    try dsimp only at h
  all_goals
    simp only [ensure_groups] at h
  all_goals
    exact Or.inl h

/-- `on_start` leaves every tracked-identifier set other than the realms
empty. -/
theorem on_start_tracked_empty (uuid8 : String) (now : Int)
    (tokResp : TokenResp) (realmResp : HttpResp) :
    (on_start uuid8 now tokResp realmResp).users = [] ∧
    (on_start uuid8 now tokResp realmResp).clients = [] ∧
    (on_start uuid8 now tokResp realmResp).roles = [] ∧
    (on_start uuid8 now tokResp realmResp).groups = [] := by
  unfold on_start create_test_realm get_admin_token initial_session
  refine ⟨?_, ?_, ?_, ?_⟩ <;> (repeat' split) <;> rfl

/-- Trace-level containment: a tracked user either was tracked at the
start or comes from a confirmed creation in the trace. -/
theorem runTrace_users_mem (s : Session) (tr : List (Task × TaskCtx))
    (id : String) (h : id ∈ (runTrace s tr).users) :
    id ∈ s.users ∨ confirmedId tr Task.create_user created_user_id id := by
  induction tr generalizing s with
  | nil => exact Or.inl h
  | cons e rest ih =>
      rcases ih (step e.1 s e.2).1 h with h1 | h1
      · rcases step_users_mem e.1 s e.2 id h1 with h2 | ⟨ht, hc⟩
        · exact Or.inl h2
        · refine Or.inr ⟨e.2, ?_, ?_, ?_, hc⟩
          · rw [← ht, Prod.mk.eta]
            exact List.mem_cons_self e rest
          · have := created_user_id_status e.2 id hc; omega
          · have := created_user_id_status e.2 id hc; omega
      · obtain ⟨c, hmem, hb1, hb2, hc⟩ := h1
        exact Or.inr ⟨c, List.mem_cons_of_mem e hmem, hb1, hb2, hc⟩

/-- Trace-level containment for clients. -/
theorem runTrace_clients_mem (s : Session) (tr : List (Task × TaskCtx))
    (id : String) (h : id ∈ (runTrace s tr).clients) :
    id ∈ s.clients ∨ confirmedId tr Task.create_client created_client_id id := by
  induction tr generalizing s with
  | nil => exact Or.inl h
  | cons e rest ih =>
      rcases ih (step e.1 s e.2).1 h with h1 | h1
      · rcases step_clients_mem e.1 s e.2 id h1 with h2 | ⟨ht, hc⟩
        · exact Or.inl h2
        · refine Or.inr ⟨e.2, ?_, ?_, ?_, hc⟩
          · rw [← ht, Prod.mk.eta]
            exact List.mem_cons_self e rest
          · have := created_client_id_status e.2 id hc; omega
          · have := created_client_id_status e.2 id hc; omega
      · obtain ⟨c, hmem, hb1, hb2, hc⟩ := h1
        exact Or.inr ⟨c, List.mem_cons_of_mem e hmem, hb1, hb2, hc⟩

/-- Trace-level containment for roles. -/
theorem runTrace_roles_mem (s : Session) (tr : List (Task × TaskCtx))
    (id : String) (h : id ∈ (runTrace s tr).roles) :
    id ∈ s.roles ∨ confirmedId tr Task.create_realm_role created_role_id id := by
  induction tr generalizing s with
  | nil => exact Or.inl h
  | cons e rest ih =>
      rcases ih (step e.1 s e.2).1 h with h1 | h1
      · rcases step_roles_mem e.1 s e.2 id h1 with h2 | ⟨ht, hc⟩
        · exact Or.inl h2
        · refine Or.inr ⟨e.2, ?_, ?_, ?_, hc⟩
          · rw [← ht, Prod.mk.eta]
            exact List.mem_cons_self e rest
          · have := created_role_id_status e.2 id hc; omega
          · have := created_role_id_status e.2 id hc; omega
      · obtain ⟨c, hmem, hb1, hb2, hc⟩ := h1
        exact Or.inr ⟨c, List.mem_cons_of_mem e hmem, hb1, hb2, hc⟩

/-- Trace-level containment for groups. -/
theorem runTrace_groups_mem (s : Session) (tr : List (Task × TaskCtx))
    (id : String) (h : id ∈ (runTrace s tr).groups) :
    id ∈ s.groups ∨ confirmedId tr Task.create_group created_group_id id := by
  induction tr generalizing s with
  | nil => exact Or.inl h
  | cons e rest ih =>
      rcases ih (step e.1 s e.2).1 h with h1 | h1
      · rcases step_groups_mem e.1 s e.2 id h1 with h2 | ⟨ht, hc⟩
        · exact Or.inl h2
        · refine Or.inr ⟨e.2, ?_, ?_, ?_, hc⟩
          · rw [← ht, Prod.mk.eta]
            exact List.mem_cons_self e rest
          · have := created_group_id_status e.2 id hc; omega
          · have := created_group_id_status e.2 id hc; omega
      · obtain ⟨c, hmem, hb1, hb2, hc⟩ := h1
        exact Or.inr ⟨c, List.mem_cons_of_mem e hmem, hb1, hb2, hc⟩

/-- C4: each delete task, when at least 2 identifiers of its type are
tracked, removes exactly the most recently created one (the set becomes its
`dropLast` and the DELETE targets its last element) and leaves at least one
tracked; with fewer than 2 tracked it is a no-op on the set and issues no
request. -/
theorem claim_C4 (s : Session) (ctx : TaskCtx) :
    ((2 ≤ s.users.length →
        (step Task.delete_user s ctx).1.users = s.users.dropLast ∧
        1 ≤ (step Task.delete_user s ctx).1.users.length ∧
        (step Task.delete_user s ctx).2 =
          [⟨"DELETE", realmPath s ++ "/users/" ++ s.users.getLastD "", none⟩]) ∧
      (s.users.length < 2 →
        (step Task.delete_user s ctx).1.users = s.users ∧
        (step Task.delete_user s ctx).2 = [])) ∧
    ((2 ≤ s.clients.length →
        (step Task.delete_client s ctx).1.clients = s.clients.dropLast ∧
        1 ≤ (step Task.delete_client s ctx).1.clients.length ∧
        (step Task.delete_client s ctx).2 =
          [⟨"DELETE", realmPath s ++ "/clients/" ++ s.clients.getLastD "", none⟩]) ∧
      (s.clients.length < 2 →
        (step Task.delete_client s ctx).1.clients = s.clients ∧
        (step Task.delete_client s ctx).2 = [])) ∧
    ((2 ≤ s.roles.length →
        (step Task.delete_realm_role s ctx).1.roles = s.roles.dropLast ∧
        1 ≤ (step Task.delete_realm_role s ctx).1.roles.length ∧
        (step Task.delete_realm_role s ctx).2 =
          [⟨"DELETE", realmPath s ++ "/roles/" ++ s.roles.getLastD "", none⟩]) ∧
      (s.roles.length < 2 →
        (step Task.delete_realm_role s ctx).1.roles = s.roles ∧
        (step Task.delete_realm_role s ctx).2 = [])) ∧
    ((2 ≤ s.groups.length →
        (step Task.delete_group s ctx).1.groups = s.groups.dropLast ∧
        1 ≤ (step Task.delete_group s ctx).1.groups.length ∧
        (step Task.delete_group s ctx).2 =
          [⟨"DELETE", realmPath s ++ "/groups/" ++ s.groups.getLastD "", none⟩]) ∧
      (s.groups.length < 2 →
        (step Task.delete_group s ctx).1.groups = s.groups ∧
        (step Task.delete_group s ctx).2 = [])) := by
  refine ⟨⟨?_, ?_⟩, ⟨?_, ?_⟩, ⟨?_, ?_⟩, ⟨?_, ?_⟩⟩ <;> intro h
  · rw [step_delete_user_eq, if_pos (show 1 < s.users.length by omega)]
    refine ⟨rfl, ?_, rfl⟩
    show 1 ≤ s.users.dropLast.length
    rw [List.length_dropLast]; omega
  · rw [step_delete_user_eq, if_neg (show ¬ 1 < s.users.length by omega)]
    exact ⟨ensure_users _ _ _, rfl⟩
  · rw [step_delete_client_eq, if_pos (show 1 < s.clients.length by omega)]
    refine ⟨rfl, ?_, rfl⟩
    show 1 ≤ s.clients.dropLast.length
    rw [List.length_dropLast]; omega
  · rw [step_delete_client_eq, if_neg (show ¬ 1 < s.clients.length by omega)]
    exact ⟨ensure_clients _ _ _, rfl⟩
  · rw [step_delete_role_eq, if_pos (show 1 < s.roles.length by omega)]
    refine ⟨rfl, ?_, rfl⟩
    show 1 ≤ s.roles.dropLast.length
    rw [List.length_dropLast]; omega
  · rw [step_delete_role_eq, if_neg (show ¬ 1 < s.roles.length by omega)]
    exact ⟨ensure_roles _ _ _, rfl⟩
  · rw [step_delete_group_eq, if_pos (show 1 < s.groups.length by omega)]
    refine ⟨rfl, ?_, rfl⟩
    show 1 ≤ s.groups.dropLast.length
    rw [List.length_dropLast]; omega
  · rw [step_delete_group_eq, if_neg (show ¬ 1 < s.groups.length by omega)]
    exact ⟨ensure_groups _ _ _, rfl⟩

/-- C4, witness: on a session tracking users `["a", "b"]`, `delete_user`
leaves `["a"]` and deletes exactly `b`, the most recently created user. -/
theorem claim_C4_witness :
    (step Task.delete_user sessAB ctxA).1.users = ["a"] ∧
    (step Task.delete_user sessAB ctxA).2 =
      [⟨"DELETE", "/admin/realms/r/users/b", none⟩] := by
  have h := (claim_C4 sessAB ctxA).1.1 (by decide)
  exact ⟨h.1, h.2.2⟩

/-- C6: a successful token fetch at time `now` against a response declaring
lifetime `L` stores expiry `now + (L − 60)`; whenever the stored expiry is
strictly in the past, `ensure_valid_token` performs exactly one refetch;
and the refetch decision is purely time-based — one fetch exactly when
`token_expires_at ≤ now`, zero otherwise. -/
theorem claim_C6 (now L : Int) (resp : TokenResp) (s : Session) :
    (resp.status = 200 → resp.expires_in = some L →
      (get_admin_token now resp s).token_expires_at = now + (L - 60)) ∧
    (s.token_expires_at < now → (ensure_valid_token now resp s).2 = 1) ∧
    ((ensure_valid_token now resp s).2 =
      if s.token_expires_at ≤ now then 1 else 0) := by
  refine ⟨fun h1 h2 => ?_, fun h => ?_, ?_⟩
  · simp [get_admin_token, h1, h2]
  · simp [ensure_valid_token, le_of_lt h]
  · unfold ensure_valid_token
    split <;> simp_all

/-- C6, witness: at time 100 a fetch against a 300-second lifetime stores
expiry 340, and a session whose expiry 0 is already past performs exactly
one refetch. -/
theorem claim_C6_witness :
    (get_admin_token 100 tokOK sessAB).token_expires_at = 100 + (300 - 60) ∧
    (ensure_valid_token 100 tokOK
      { sessAB with token_expires_at := 0 }).2 = 1 :=
  ⟨(claim_C6 100 300 tokOK sessAB).1 rfl rfl,
    (claim_C6 100 300 tokOK { sessAB with token_expires_at := 0 }).2.1
      (by norm_num)⟩

/-- C10: however the session ran, `cleanup_resources` issues the DELETE of
the test realm exactly when the realm-creation POST of `on_start` answered
201 (which is when the realm name was recorded in
`created_resources['realms']`); when realm creation failed, session end
issues no realm deletion request. -/
theorem claim_C10 (uuid8 : String) (now now2 : Int)
    (tokResp tokResp2 : TokenResp) (realmResp : HttpResp)
    (tr : List (Task × TaskCtx)) :
    ((cleanup_resources now2 tokResp2
        (runTrace (on_start uuid8 now tokResp realmResp) tr)).2 =
          [⟨"DELETE", "/admin/realms/" ++ ("test-realm-" ++ uuid8), none⟩] ↔
      realmResp.status = 201) ∧
    (realmResp.status ≠ 201 →
      (cleanup_resources now2 tokResp2
        (runTrace (on_start uuid8 now tokResp realmResp) tr)).2 = []) := by
  have hn : (runTrace (on_start uuid8 now tokResp realmResp) tr).test_realm_name =
      "test-realm-" ++ uuid8 := by
    rw [runTrace_realm_name, on_start_realm_name]
  have hr : (runTrace (on_start uuid8 now tokResp realmResp) tr).realms =
      if realmResp.status = 201 then ["test-realm-" ++ uuid8] else [] := by
    rw [runTrace_realms, on_start_realms]
  unfold cleanup_resources
  simp only [ensure_realms, ensure_realm_name, hn, hr]
  by_cases h : realmResp.status = 201 <;> simp [h]

/-- C5: for the full-replace resources (realm role and group), every
execution of the update task emits either nothing (nothing tracked), or a
single GET, or a GET immediately followed by the PUT; and whenever the PUT
is issued, its body's key set contains every key of the body the GET
returned (round-trip merge). -/
theorem claim_C5 (s : Session) (ctx : TaskCtx) :
    ((step Task.update_realm_role s ctx).2 = [] ∨
      (∃ g : Request, (step Task.update_realm_role s ctx).2 = [g] ∧
        g.method = "GET") ∨
      (∃ g p : Request, ∃ b : JObj,
        (step Task.update_realm_role s ctx).2 = [g, p] ∧ g.method = "GET" ∧
        p.method = "PUT" ∧ p.body = some b ∧
        ∀ k ∈ keys ctx.resp.body, k ∈ keys b)) ∧
    ((step Task.update_group s ctx).2 = [] ∨
      (∃ g : Request, (step Task.update_group s ctx).2 = [g] ∧
        g.method = "GET") ∨
      (∃ g p : Request, ∃ b : JObj,
        (step Task.update_group s ctx).2 = [g, p] ∧ g.method = "GET" ∧
        p.method = "PUT" ∧ p.body = some b ∧
        ∀ k ∈ keys ctx.resp.body, k ∈ keys b)) := by
  constructor
  · by_cases he : s.roles.isEmpty
    · left
      rw [step_update_role_eq]
      simp [he]
    · by_cases hst : ctx.resp.status = 200
      · right; right
        refine ⟨⟨"GET", realmPath s ++ "/roles/" ++ randomChoice ctx.rand s.roles, none⟩,
          ⟨"PUT", realmPath s ++ "/roles/" ++ randomChoice ctx.rand s.roles,
            some (update_role_body ctx.now ctx.resp.body)⟩,
          update_role_body ctx.now ctx.resp.body, ?_, rfl, rfl, rfl, ?_⟩
        · rw [step_update_role_eq]
          simp [he, hst]
        · intro k hk
          unfold update_role_body
          exact mem_keys_setKey _ _ _ _ hk
      · right; left
        refine ⟨⟨"GET", realmPath s ++ "/roles/" ++ randomChoice ctx.rand s.roles, none⟩, ?_, rfl⟩
        rw [step_update_role_eq]
        simp [he, hst]
  · by_cases he : s.groups.isEmpty
    · left
      rw [step_update_group_eq]
      simp [he]
    · by_cases hst : ctx.resp.status = 200
      · cases hb : update_group_body ctx.now ctx.resp.body with
        | some b =>
            right; right
            refine ⟨⟨"GET", realmPath s ++ "/groups/" ++ randomChoice ctx.rand s.groups, none⟩,
              ⟨"PUT", realmPath s ++ "/groups/" ++ randomChoice ctx.rand s.groups, some b⟩,
              b, ?_, rfl, rfl, rfl, keys_update_group_body ctx.now ctx.resp.body b hb⟩
            rw [step_update_group_eq]
            simp [he, hst, hb]
        | none =>
            right; left
            refine ⟨⟨"GET", realmPath s ++ "/groups/" ++ randomChoice ctx.rand s.groups, none⟩, ?_, rfl⟩
            rw [step_update_group_eq]
            simp [he, hst, hb]
      · right; left
        refine ⟨⟨"GET", realmPath s ++ "/groups/" ++ randomChoice ctx.rand s.groups, none⟩, ?_, rfl⟩
        rw [step_update_group_eq]
        simp [he, hst]

/-- C2, counterexample: the claim says every update *and delete* operation
chooses uniformly at random among the currently tracked identifiers.  On a
session tracking users `["a", "b"]` with random draw 0, the uniform choice
is `"a"`, yet `delete_user` always targets `"b"` (it pops the most recent,
independent of the random source). -/
theorem claim_C2_cex :
    (step Task.delete_user sessAB ctxA).2 =
      [⟨"DELETE", "/admin/realms/r/users/b", none⟩] ∧
    randomChoice ctxA.rand sessAB.users = "a" ∧ ("b" : String) ≠ "a" :=
  ⟨rfl, rfl, by decide⟩

/-- C2, amended: every identifier in a session's users/clients/roles/groups
set after any task history comes from a creation of that resource type that
was confirmed by a 2xx (here 201) response within the session; every update
operation chooses uniformly at random among the session's own currently
tracked identifiers; and every delete operation targets the
most-recently-created identifier of the session's own set (not a uniform
choice). -/
theorem claim_C2 (uuid8 : String) (now : Int) (tokResp : TokenResp)
    (realmResp : HttpResp) (tr : List (Task × TaskCtx)) (s : Session)
    (ctx : TaskCtx) :
    (∀ id ∈ (runTrace (on_start uuid8 now tokResp realmResp) tr).users,
      confirmedId tr Task.create_user created_user_id id) ∧
    (∀ id ∈ (runTrace (on_start uuid8 now tokResp realmResp) tr).clients,
      confirmedId tr Task.create_client created_client_id id) ∧
    (∀ id ∈ (runTrace (on_start uuid8 now tokResp realmResp) tr).roles,
      confirmedId tr Task.create_realm_role created_role_id id) ∧
    (∀ id ∈ (runTrace (on_start uuid8 now tokResp realmResp) tr).groups,
      confirmedId tr Task.create_group created_group_id id) ∧
    (¬ s.users.isEmpty = true →
      ∃ id, id ∈ s.users ∧ id = randomChoice ctx.rand s.users ∧
        (step Task.update_user s ctx).2 =
          [⟨"PUT", realmPath s ++ "/users/" ++ id,
            some (update_user_payload ctx.now ctx.uid)⟩]) ∧
    (¬ s.clients.isEmpty = true →
      ∃ id, id ∈ s.clients ∧ id = randomChoice ctx.rand s.clients ∧
        (step Task.update_client s ctx).2 =
          [⟨"PUT", realmPath s ++ "/clients/" ++ id,
            some (update_client_payload ctx.now)⟩]) ∧
    (¬ s.roles.isEmpty = true →
      ∃ id, id ∈ s.roles ∧ id = randomChoice ctx.rand s.roles ∧
        ∀ req ∈ (step Task.update_realm_role s ctx).2,
          req.path = realmPath s ++ "/roles/" ++ id) ∧
    (¬ s.groups.isEmpty = true →
      ∃ id, id ∈ s.groups ∧ id = randomChoice ctx.rand s.groups ∧
        ∀ req ∈ (step Task.update_group s ctx).2,
          req.path = realmPath s ++ "/groups/" ++ id) ∧
    (∀ req ∈ (step Task.delete_user s ctx).2,
      req.path = realmPath s ++ "/users/" ++ s.users.getLastD "" ∧
        s.users.getLastD "" ∈ s.users) ∧
    (∀ req ∈ (step Task.delete_client s ctx).2,
      req.path = realmPath s ++ "/clients/" ++ s.clients.getLastD "" ∧
        s.clients.getLastD "" ∈ s.clients) ∧
    (∀ req ∈ (step Task.delete_realm_role s ctx).2,
      req.path = realmPath s ++ "/roles/" ++ s.roles.getLastD "" ∧
        s.roles.getLastD "" ∈ s.roles) ∧
    (∀ req ∈ (step Task.delete_group s ctx).2,
      req.path = realmPath s ++ "/groups/" ++ s.groups.getLastD "" ∧
        s.groups.getLastD "" ∈ s.groups) := by
  obtain ⟨hu, hc, hr, hg⟩ := on_start_tracked_empty uuid8 now tokResp realmResp
  refine ⟨?_, ?_, ?_, ?_, ?_, ?_, ?_, ?_, ?_, ?_, ?_, ?_⟩
  · intro id hid
    rcases runTrace_users_mem _ tr id hid with h | h
    · rw [hu] at h; simp at h
    · exact h
  · intro id hid
    rcases runTrace_clients_mem _ tr id hid with h | h
    · rw [hc] at h; simp at h
    · exact h
  · intro id hid
    rcases runTrace_roles_mem _ tr id hid with h | h
    · rw [hr] at h; simp at h
    · exact h
  · intro id hid
    rcases runTrace_groups_mem _ tr id hid with h | h
    · rw [hg] at h; simp at h
    · exact h
  · intro he
    refine ⟨randomChoice ctx.rand s.users, randomChoice_mem _ _ he, rfl, ?_⟩
    rw [step_update_user_eq]
    simp [he]
  · intro he
    refine ⟨randomChoice ctx.rand s.clients, randomChoice_mem _ _ he, rfl, ?_⟩
    rw [step_update_client_eq]
    simp [he]
  · intro he
    refine ⟨randomChoice ctx.rand s.roles, randomChoice_mem _ _ he, rfl, ?_⟩
    intro req hreq
    rw [step_update_role_eq] at hreq
    by_cases hst : ctx.resp.status = 200 <;>
      simp only [he, hst] at hreq <;> simp at hreq <;>
      rcases hreq with rfl | rfl <;> rfl
  · intro he
    refine ⟨randomChoice ctx.rand s.groups, randomChoice_mem _ _ he, rfl, ?_⟩
    intro req hreq
    rw [step_update_group_eq] at hreq
    by_cases hst : ctx.resp.status = 200
    · cases hb : update_group_body ctx.now ctx.resp.body with
      | some b =>
          simp only [he, hst, hb] at hreq
          simp at hreq
          rcases hreq with rfl | rfl <;> rfl
      | none =>
          simp only [he, hst, hb] at hreq
          simp at hreq
          rw [hreq]
    · simp only [he, hst] at hreq
      simp at hreq
      rw [hreq]
  · intro req hreq
    rw [step_delete_user_eq] at hreq
    split_ifs at hreq with h1
    · simp only [List.mem_singleton] at hreq
      subst hreq
      refine ⟨rfl, getLastD_mem _ _ ?_⟩
      intro h0
      rw [h0] at h1
      simp at h1
    · simp at hreq
  · intro req hreq
    rw [step_delete_client_eq] at hreq
    split_ifs at hreq with h1
    · simp only [List.mem_singleton] at hreq
      subst hreq
      refine ⟨rfl, getLastD_mem _ _ ?_⟩
      intro h0
      rw [h0] at h1
      simp at h1
    · simp at hreq
  · intro req hreq
    rw [step_delete_role_eq] at hreq
    split_ifs at hreq with h1
    · simp only [List.mem_singleton] at hreq
      subst hreq
      refine ⟨rfl, getLastD_mem _ _ ?_⟩
      intro h0
      rw [h0] at h1
      simp at h1
    · simp at hreq
  · intro req hreq
    rw [step_delete_group_eq] at hreq
    split_ifs at hreq with h1
    · simp only [List.mem_singleton] at hreq
      subst hreq
      refine ⟨rfl, getLastD_mem _ _ ?_⟩
      intro h0
      rw [h0] at h1
      simp at h1
    · simp at hreq

/-- C2, witness: a trace with one confirmed `create_user` yields a tracked
user `newid` that is confirmed-created, and on a session tracking
`["a", "b"]` the update task targets the uniformly chosen tracked user. -/
theorem claim_C2_witness :
    confirmedId [(Task.create_user, ctxCreate)] Task.create_user
      created_user_id "newid" ∧
    (∃ id, id ∈ sessAB.users ∧ id = randomChoice ctxA.rand sessAB.users ∧
      (step Task.update_user sessAB ctxA).2 =
        [⟨"PUT", realmPath sessAB ++ "/users/" ++ id,
          some (update_user_payload ctxA.now ctxA.uid)⟩]) := by
  have h := claim_C2 "ab" 0 tokOK resp201 [(Task.create_user, ctxCreate)]
    sessAB ctxA
  refine ⟨h.1 "newid" ?_, h.2.2.2.2.1 (by decide)⟩
  decide

/-- The float guard `count > len * 0.1` read over the rationals is the
integer condition `len < count * 10`. -/
theorem cpu_guard_iff (n c : Nat) :
    ((n : ℚ) * (1/10) < (c : ℚ)) ↔ n < c * 10 := by
  rw [show ((n : ℚ) * (1/10)) = (n : ℚ) / 10 by ring,
    div_lt_iff₀ (by norm_num : (0 : ℚ) < 10)]
  exact_mod_cast Iff.rfl

/-- The memory check never produces a CPU finding. -/
theorem cpu_not_mem_memory (df : List SampleRow) (c : Nat) :
    Finding.cpu c ∉ memory_findings df := by
  intro h
  unfold memory_findings at h
  split at h <;> simp at h

/-- The load check never produces a CPU finding. -/
theorem cpu_not_mem_load (cc : ℚ) (df : List SampleRow) (c : Nat) :
    Finding.cpu c ∉ load_findings cc df := by
  intro h
  unfold load_findings at h
  split at h <;> simp at h

/-- The disk check never produces a CPU finding. -/
theorem cpu_not_mem_disk (df : List SampleRow) (c : Nat) :
    Finding.cpu c ∉ disk_findings df := by
  intro h
  unfold disk_findings at h
  split at h
  · split at h <;> simp at h
  · simp at h

/-- The network check never produces a CPU finding. -/
theorem cpu_not_mem_network (df : List SampleRow) (c : Nat) :
    Finding.cpu c ∉ network_findings df := by
  intro h
  unfold network_findings at h
  split at h
  · split at h <;> simp at h
  · simp at h

/-- The four non-CPU checks never produce a CPU finding. -/
theorem cpu_not_mem_other (df : List SampleRow) (c : Nat) :
    Finding.cpu c ∉ other_bottlenecks df := by
  intro h
  unfold other_bottlenecks at h
  cases df with
  | nil => simp at h
  | cons f rest =>
      simp only [List.mem_append] at h
      rcases h with ((h | h) | h) | h
      · exact cpu_not_mem_memory _ _ h
      · exact cpu_not_mem_load _ _ _ h
      · exact cpu_not_mem_disk _ _ h
      · exact cpu_not_mem_network _ _ h

/-- On a non-empty table, `analyze_bottlenecks` is the CPU check's prefix
followed by the other four checks. -/
theorem analyze_bottlenecks_cons (f : SampleRow) (rest : List SampleRow) :
    analyze_bottlenecks (f :: rest) =
      some ((if ((f :: rest).length : ℚ) * (1/10) <
               (cpuHighCount (f :: rest) : ℚ)
             then [Finding.cpu (cpuHighCount (f :: rest))] else []) ++
            other_bottlenecks (f :: rest)) := rfl

/-- C7: on every non-empty sample table, the findings list contains the CPU
finding if and only if the number of samples with CPU % strictly above 80
strictly exceeds 10 % of the row count (`len < count * 10`); in particular
at exactly 10 % (or fewer) the CPU finding is absent. -/
theorem claim_C7 (df : List SampleRow) (hne : df ≠ []) :
    ∃ fs, analyze_bottlenecks df = some fs ∧
      fs = (if df.length < cpuHighCount df * 10
            then [Finding.cpu (cpuHighCount df)] else []) ++
           other_bottlenecks df ∧
      (Finding.cpu (cpuHighCount df) ∈ fs ↔
        df.length < cpuHighCount df * 10) := by
  cases df with
  | nil => exact absurd rfl hne
  | cons f rest =>
      rw [analyze_bottlenecks_cons]
      refine ⟨_, rfl, ?_, ?_⟩
      · by_cases hg : (f :: rest).length < cpuHighCount (f :: rest) * 10
        · rw [if_pos ((cpu_guard_iff _ _).mpr hg), if_pos hg]
        · rw [if_neg (fun hq => hg ((cpu_guard_iff _ _).mp hq)), if_neg hg]
      · by_cases hg : (f :: rest).length < cpuHighCount (f :: rest) * 10
        · rw [if_pos ((cpu_guard_iff _ _).mpr hg)]
          exact iff_of_true (List.mem_append.2 (Or.inl (List.mem_singleton.2 rfl))) hg
        · rw [if_neg (fun hq => hg ((cpu_guard_iff _ _).mp hq))]
          refine iff_of_false ?_ hg
          intro hmem
          rw [List.nil_append] at hmem
          exact cpu_not_mem_other _ _ hmem

/-- C7, witness: the theorem applied to the ten-row table whose CPU
exceeds the threshold in exactly 10 % of rows (the boundary case the spec
singles out). -/
theorem claim_C7_witness :
    ∃ fs, analyze_bottlenecks dfTen = some fs ∧
      fs = (if dfTen.length < cpuHighCount dfTen * 10
            then [Finding.cpu (cpuHighCount dfTen)] else []) ++
           other_bottlenecks dfTen ∧
      (Finding.cpu (cpuHighCount dfTen) ∈ fs ↔
        dfTen.length < cpuHighCount dfTen * 10) :=
  claim_C7 dfTen (by decide)

/-- C8: the network and disk panels plot `diff / (1024*1024)` — the raw
successive difference scaled to MiB — with no division by the sampling
interval, although their axes are labelled MB/s.  At cumulative counters
`[0, 10485760]` sampled 5 s apart the panel plots 10, while the
per-second rate the claim (and the axis label) describe is
`10485760 / 5` bytes/s, i.e. 2 MB/s — the plotted value matches
neither. -/
theorem claim_C8 :
    net_sent_mb [ioRow 0 0, ioRow 0 10485760] = [none, some 10] ∧
    disk_read_mb [ioRow 0 0, ioRow 10485760 0] = [none, some 10] ∧
    specRatePanel 5 [0, 10485760] = [none, some 2097152] ∧
    ((2097152 : ℚ) / (1024 * 1024) = 2) ∧
    ((10 : ℚ) ≠ 2097152) ∧ ((10 : ℚ) ≠ 2) := by
  refine ⟨?_, ?_, ?_, by norm_num, by norm_num, by norm_num⟩
  · simp only [net_sent_mb, mbPanel, diffSeries, diffs, ioRow, List.map_cons,
      List.map_nil, Option.map_some, Option.map_none]
    norm_num
  · simp only [disk_read_mb, mbPanel, diffSeries, diffs, ioRow, List.map_cons,
      List.map_nil, Option.map_some, Option.map_none]
    norm_num
  · simp only [specRatePanel, diffSeries, diffs, List.map_cons, List.map_nil,
      Option.map_some, Option.map_none]
    norm_num

/-- C9, counterexample: the claim says a failed query's error is logged,
but a non-200 response records the default 0 *silently* — only the
`except` branch prints. -/
theorem claim_C9_cex :
    (queryValue (PromOutcome.resp 500 true [1])).1 = 0 ∧
    (queryValue (PromOutcome.resp 500 true [1])).2 = false :=
  ⟨rfl, rfl⟩

/-- C9, amended: for every named query in every iteration, any failure —
exception, non-200 status, non-success payload, or empty result — records
the value 0 for that query, and the collection loop continues: every
iteration yields a row and every row has one value per query.  The error is
printed only when an exception was raised; HTTP-level failures and empty
results default to 0 silently. -/
theorem claim_C9 (queries : List String) (oracle : Nat → String → PromOutcome)
    (iterations : Nat) (status : Nat) (success : Bool) (result : List ℚ) :
    (collect_prometheus_metrics queries oracle iterations).length = iterations ∧
    (∀ row ∈ collect_prometheus_metrics queries oracle iterations,
      row.length = queries.length) ∧
    queryValue PromOutcome.exn = (0, true) ∧
    (status ≠ 200 → queryValue (.resp status success result) = (0, false)) ∧
    queryValue (.resp 200 false result) = (0, false) ∧
    queryValue (.resp 200 success []) = (0, false) ∧
    (∀ (v : ℚ) (vs : List ℚ),
      queryValue (.resp 200 true (v :: vs)) = (v, false)) := by
  refine ⟨?_, ?_, rfl, ?_, ?_, ?_, ?_⟩
  · simp [collect_prometheus_metrics]
  · intro row hrow
    simp only [collect_prometheus_metrics, List.mem_map] at hrow
    obtain ⟨i, _, rfl⟩ := hrow
    simp [collect_row]
  · intro h
    simp [queryValue, h]
  · simp [queryValue]
  · cases success <;> simp [queryValue]
  · intro v vs
    simp [queryValue]

/-- C9, witness: three iterations of two queries against an oracle that
always raises still produce three rows, and a 404 outcome records 0
without logging. -/
theorem claim_C9_witness :
    (collect_prometheus_metrics ["up", "load"]
      (fun _ _ => PromOutcome.exn) 3).length = 3 ∧
    queryValue (.resp 404 true [5]) = (0, false) :=
  ⟨(claim_C9 ["up", "load"] (fun _ _ => PromOutcome.exn) 3 404 true [5]).1,
   (claim_C9 ["up", "load"] (fun _ _ => PromOutcome.exn) 3 404 true
      [5]).2.2.2.1 (by decide)⟩

end KeycloakLoad
